import Mathlib

/-!
Verification of the document-intelligence workflow repository.

The development shallowly embeds the Python sources:
  * `workflow_one.py`   — the compliance adapter and its JSON fallback parser;
  * `workflow_small.py` — the HITL coordinator (`prepare_request` / `handle_response`),
    the final/result executors and the `APPROVAL_CONTEXT` correlation store;
  * `workflow_api.py`   — the SSE bridge (`event_generator`) and the
    `submit_approval` endpoint with its `workflow_sessions` / `pending_approvals`
    module-level tables.

Python dictionaries are modelled as association lists over `String` keys,
Python JSON values as the inductive `PyVal`, Python exceptions as `Except PyErr`.
`json.loads` is an external library call and is passed in as an opaque
`String → Option PyVal` parameter (`none` models a raised `JSONDecodeError`).
-/

namespace DocIntel

/-- Values produced by parsing JSON / held in Python dicts. -/
inductive PyVal where
  | pnone
  | pbool (b : Bool)
  | pint (n : Int)
  | pstr (s : String)
  | plist (xs : List PyVal)
  | pdict (entries : List (String × PyVal))

/-- First-match lookup in an association list (Python `d[k]` / `d.get(k)`). -/
def alGet {α : Type} : List (String × α) → String → Option α
  | [], _ => none
  | (k, v) :: rest, key => if k = key then some v else alGet rest key

/-- Remove a key from an association list (Python `del d[k]` / `d.pop(k)`). -/
def alErase {α : Type} : List (String × α) → String → List (String × α)
  | [], _ => []
  | (k, v) :: rest, key => if k = key then alErase rest key else (k, v) :: alErase rest key

/-- Overwrite-or-insert a key (Python `d[k] = v`). -/
def alSet {α : Type} (l : List (String × α)) (key : String) (v : α) : List (String × α) :=
  (key, v) :: alErase l key

theorem alGet_erase {α : Type} (l : List (String × α)) (key : String) :
    alGet (alErase l key) key = none := by
  induction l with
  | nil => rfl
  | cons p rest ih =>
    obtain ⟨k, v⟩ := p
    by_cases h : k = key
    · simpa [alErase, h] using ih
    · simpa [alErase, alGet, h] using ih

theorem alGet_set {α : Type} (l : List (String × α)) (key : String) (v : α) :
    alGet (alSet l key v) key = some v := by
  simp [alSet, alGet]

theorem alGet_erase_ne {α : Type} (l : List (String × α)) (key key2 : String)
    (h : key2 ≠ key) : alGet (alErase l key) key2 = alGet l key2 := by
  induction l with
  | nil => rfl
  | cons p rest ih =>
    obtain ⟨k, v⟩ := p
    by_cases hp : k = key
    · have hk2 : k ≠ key2 := by rw [hp]; exact fun hk => h hk.symm
      rw [show alErase ((k, v) :: rest) key = alErase rest key by simp [alErase, hp]]
      rw [ih]
      simp [alGet, hk2]
    · rw [show alErase ((k, v) :: rest) key = (k, v) :: alErase rest key by simp [alErase, hp]]
      by_cases hq : k = key2
      · simp [alGet, hq]
      · simpa [alGet, hq] using ih

theorem alGet_set_ne {α : Type} (l : List (String × α)) (key key2 : String) (v : α)
    (h : key2 ≠ key) : alGet (alSet l key v) key2 = alGet l key2 := by
  have h1 : key ≠ key2 := fun hk => h hk.symm
  rw [show alGet (alSet l key v) key2 = alGet (alErase l key) key2 by simp [alSet, alGet, h1]]
  exact alGet_erase_ne l key key2 h

theorem alGet_set_isSome {α : Type} (l : List (String × α)) (key key2 : String) (v : α)
    (h : (alGet l key2).isSome) : (alGet (alSet l key v) key2).isSome := by
  by_cases hk : key2 = key
  · subst hk; simp [alGet_set]
  · rwa [alGet_set_ne l key key2 v hk]

/-- Python truthiness (`bool(x)`) for the modelled values. -/
def truthy : PyVal → Bool
  | .pnone => false
  | .pbool b => b
  | .pint n => n != 0
  | .pstr s => s != ""
  | .plist xs => !xs.isEmpty
  | .pdict d => !d.isEmpty

/-- Python `a or b`. -/
def pyOr (a b : PyVal) : PyVal := if truthy a then a else b

/-- Python exceptions distinguished by the sources. -/
inductive PyErr where
  | typeError
  | attributeError (attr : String)
  | jsonDecodeError
  | keyError (k : String)

/-- Python `v.get(k, dflt)`: succeeds on dicts, raises `AttributeError` otherwise. -/
def pyGetE (v : PyVal) (k : String) (dflt : PyVal) : Except PyErr PyVal :=
  match v with
  | .pdict d => .ok ((alGet d k).getD dflt)
  | _ => .error (.attributeError "get")

/-- Python `len(v)`: strings, lists and dicts only. -/
def pyLen : PyVal → Except PyErr Nat
  | .pstr s => .ok s.length
  | .plist xs => .ok xs.length
  | .pdict d => .ok d.length
  | _ => .error .typeError

/-- Python `s[:n]` on strings (character-wise). -/
def pyTake (s : String) (n : Nat) : String := (s.toList.take n).asString

/-- Python `v[:n]`. -/
def pySlice : PyVal → Nat → Except PyErr PyVal
  | .pstr s, n => .ok (.pstr (pyTake s n))
  | .plist xs, n => .ok (.plist (xs.take n))
  | _, _ => .error .typeError

/-- Python `a + b` (the cases the sources exercise). -/
def pyAdd : PyVal → PyVal → Except PyErr PyVal
  | .pstr a, .pstr b => .ok (.pstr (a ++ b))
  | .plist a, .plist b => .ok (.plist (a ++ b))
  | .pint a, .pint b => .ok (.pint (a + b))
  | _, _ => .error .typeError

/-- Python `str(v)`; the development only ever evaluates it on scalars,
container rendering is abbreviated. -/
def pyStrOf : PyVal → String
  | .pnone => "None"
  | .pbool true => "True"
  | .pbool false => "False"
  | .pint n => toString n
  | .pstr s => s
  | .plist _ => "[...]"
  | .pdict _ => "\x7b...\x7d"

/-- The literal `"{}"` that `_parse_compliance_json` feeds to `json.loads`
when the agent text is empty (`text or "{}"`). -/
def emptyObjLiteral : String := "\x7b\x7d"

/-- From `workflow_one.py`, the `except` branch of `_parse_compliance_json`:
a non-JSON agent output is replaced by a forced-review object carrying the raw
text as a note. -/
def forcedReviewObj (text : String) : PyVal :=
  .pdict [("compliance", .pdict [("is_compliant", .pbool false), ("notes", .plist [.pstr text])]),
          ("needs_human_review", .pbool true)]

/-- `_parse_compliance_json` from `workflow_one.py`. `loads` models `json.loads`
(`none` = `JSONDecodeError`). A parsed non-dict makes the subsequent `in` /
item-assignment / `setdefault` raise, which the bare `except` also converts to
the forced-review object. -/
def parse_compliance_json (loads : String → Option PyVal) (text : String) : PyVal :=
  match loads (if text = "" then emptyObjLiteral else text) with
  | some (.pdict d) =>
      let d1 := if (alGet d "compliance").isSome then d else alSet d "compliance" (.pdict [])
      let d2 := if (alGet d1 "needs_human_review").isSome then d1
                else alSet d1 "needs_human_review" (.pbool false)
      .pdict d2
  | some _ => forcedReviewObj text
  | none => forcedReviewObj text

/-- `HumanReviewPacket` from `workflow_one.py`. -/
structure HumanReviewPacket where
  document_uri : String
  summary : String
  compliance_notes : String
  prompt : String

/-- The two outgoing routes of `ComplianceAdapter.on_compliance`. -/
inductive ComplianceRoute where
  | save_results (payload : PyVal)
  | human_review (packet : HumanReviewPacket)

/-- Python `"; ".join(map(str, notes)) if isinstance(notes, list) else str(notes)`. -/
def notesJoin (notes : PyVal) : String :=
  match notes with
  | .plist xs => String.intercalate "; " (xs.map pyStrOf)
  | v => pyStrOf v

/-- `ComplianceAdapter.on_compliance` from `workflow_one.py`.
`extractor_text` and `document_uri` stand for `ctx.state["extractor_text"]`
and `ctx.state["document_uri"]`; `comp_text` is the compliance agent's text. -/
def on_compliance (loads : String → Option PyVal) (extractor_text document_uri : String)
    (comp_text : String) : Except PyErr ComplianceRoute := do
  let comp := parse_compliance_json loads comp_text
  let c ← pyGetE comp "compliance" (.pdict [])
  let isc ← pyGetE c "is_compliant" (.pbool false)
  let is_ok := truthy isc
  let nh ← pyGetE comp "needs_human_review" (.pbool false)
  let needs_human := truthy nh
  if is_ok && !needs_human then
    return .save_results (.pdict [("approved", .pbool true), ("auto", .pbool true), ("compliance", comp)])
  else
    let c2 ← pyGetE comp "compliance" (.pdict [])
    let notes ← pyGetE c2 "notes" (.plist [])
    let notes_text := notesJoin notes
    return .human_review
      ⟨document_uri, pyTake extractor_text 1000,
       (if notes_text = "" then "(no notes)" else notes_text),
       "Approve or Reject? (type \x27approve\x27 / \x27reject\x27)"⟩

/-! ## workflow_small.py: the HITL coordinator and its correlation store -/

/-- `ApprovalRequest` from `doc_data_models` as constructed and consumed by the
sources (`approval_id`, `title`, `message`, `source_uri`, `preview`).
`source_uri` and `preview` keep the raw parsed values the coordinator puts in. -/
structure ApprovalRequestMsg where
  approval_id : String
  title : String
  message : String
  source_uri : PyVal
  preview : PyVal

/-- `ApprovalResponse` from `doc_data_models` as constructed by the sources. -/
structure ApprovalResponse where
  approval_id : String
  approved : Bool
  comment : Option String

/-- One entry of the `APPROVAL_CONTEXT` module-level dict in `workflow_small.py`:
the payload and context in flight when the suspension occurred. -/
structure CtxEntry where
  payload : String
  source_uri : PyVal
  preview : PyVal

/-- The `APPROVAL_CONTEXT` correlation store: approval id to in-flight context. -/
abbrev ApprovalContext := List (String × CtxEntry)

/-- Python `s[-n:]`. -/
def takeRightStr (s : String) (n : Nat) : String :=
  (s.toList.drop (s.length - n)).asString

/-- The `ApprovalRequest(...)` literal built inside `prepare_request`. -/
def approvalRequestOf (rid : String) (uri preview : PyVal) : ApprovalRequestMsg :=
  ⟨rid, "Manual approval required", "Please review the extracted result.", uri, preview⟩

/-- The `try` block of `HitlCoordinator.prepare_request`: parse the incoming
payload for a source uri and preview. `JSONDecodeError` and `TypeError` are the
exceptions the source catches; an `AttributeError` (e.g. `.get` on a parsed
non-dict) escapes the handler. -/
def prepareTryBody (loads : String → Option PyVal) (prev : String) :
    Except PyErr (PyVal × PyVal) :=
  match loads prev with
  | none => .error .jsonDecodeError
  | some (.pdict d) => do
      let su ← pyGetE ((alGet d "document_details").getD (.pdict [])) "source_uri" .pnone
      let uri := pyOr (pyOr su ((alGet d "source_doc_uri").getD .pnone)) (.pstr "n/a")
      let tx ← pyGetE ((alGet d "document_summary").getD (.pdict [])) "text" .pnone
      let summary_text := pyOr tx (.pstr "")
      let n ← pyLen summary_text
      if 240 < n then do
        let sl ← pySlice summary_text 240
        let pv ← pyAdd sl (.pstr "…")
        return (uri, pv)
      else
        return (uri, pyOr summary_text (.pstr "No preview"))
  | some _ => .error (.attributeError "get")

/-- `HitlCoordinator.prepare_request` from `workflow_small.py`: caches the
in-flight payload under a fresh approval id `rid` (the source draws it from
`uuid.uuid4()`) and sends an `ApprovalRequest` to the `human_review_exec`
executor. On `JSONDecodeError`/`TypeError` the caught fallback uses the raw
payload as uri with a synthetic preview. -/
def prepare_request (loads : String → Option PyVal) (rid : String) (prev : String)
    (store : ApprovalContext) : Except PyErr (ApprovalContext × ApprovalRequestMsg) :=
  match prepareTryBody loads prev with
  | .error .jsonDecodeError =>
      let uri := PyVal.pstr prev
      let preview := PyVal.pstr ("Testing HITL for document: " ++ takeRightStr prev 60)
      .ok (alSet store rid ⟨prev, uri, preview⟩, approvalRequestOf rid uri preview)
  | .error .typeError =>
      let uri := PyVal.pstr prev
      let preview := PyVal.pstr ("Testing HITL for document: " ++ takeRightStr prev 60)
      .ok (alSet store rid ⟨prev, uri, preview⟩, approvalRequestOf rid uri preview)
  | .error e => .error e
  | .ok (uri, preview) =>
      .ok (alSet store rid ⟨prev, uri, preview⟩, approvalRequestOf rid uri preview)

/-- The rejection payload `handle_response` dumps to JSON and forwards. -/
def rejectionDict (remarks : String) : PyVal :=
  .pdict [("overall_status", .pstr "rejected_by_human"), ("remarks", .pstr remarks)]

/-- Python `response.comment or "Rejected"`. -/
def commentOr (c : Option String) : String :=
  match c with
  | some s => if s = "" then "Rejected" else s
  | none => "Rejected"

/-- A message the coordinator sends downstream: either the raw in-flight payload
string or the `json.dumps` of the rejection dict. -/
inductive Sent where
  | payloadMsg (s : String)
  | dumped (v : PyVal)

/-- The `WorkflowEvent({"type": "hitl", ...})` data `handle_response` emits. -/
structure HitlEventData where
  status : String
  approval_id : String

/-- `HitlCoordinator.handle_response` from `workflow_small.py`:
pops the approval id from `APPROVAL_CONTEXT` (with `{}` as default), emits the
hitl observability event, and forwards either the cached payload (approved and
payload truthy) or the rejection record. -/
def handle_response (resp : ApprovalResponse) (store : ApprovalContext) :
    ApprovalContext × HitlEventData × Sent :=
  let info := alGet store resp.approval_id
  let store2 := alErase store resp.approval_id
  let ev : HitlEventData := ⟨if resp.approved then "approved" else "rejected", resp.approval_id⟩
  match info with
  | some e =>
      if resp.approved && (e.payload != "") then (store2, ev, .payloadMsg e.payload)
      else (store2, ev, .dumped (rejectionDict (commentOr resp.comment)))
  | none => (store2, ev, .dumped (rejectionDict (commentOr resp.comment)))

/-- Modelled from the spec: the synchronous behaviour a resume must refine
(§8 round-trip) — the step forwards downstream exactly the answer-carrying
payload it would have received as input. -/
def syncDownstream (payload : String) : Sent := .payloadMsg payload

/-- Suspend-then-resume composition: `prepare_request` caches the in-flight
payload, then the matching approved answer is handled; the result is the
message sent downstream. -/
def roundTrip (loads : String → Option PyVal) (rid payload : String)
    (store : ApprovalContext) : Except PyErr Sent :=
  match prepare_request loads rid payload store with
  | .error e => .error e
  | .ok (store2, _req) => .ok (handle_response ⟨rid, true, none⟩ store2).2.2

/-! ## The engine event stream (spec-modelled) and the workflow_small pass -/

/-- Events of the engine's stream as consumed by the bridge and runner:
output, request-info, the progress/hitl observability dicts, and
executor-completed. -/
inductive WfEvent where
  | progressEv (phase status : String)
  | hitlEv (status approval_id : String)
  | requestInfoEv (request_id : String) (data : ApprovalRequestMsg)
  | outputEv (data : Sent)
  | executorCompletedEv (executor_id : String)

/-- `DocInput` from `doc_data_models` as used by the sources. -/
structure DocInput where
  document_uri : String
  document_title : Option String
  page_count : Option Int

/-- Python `doc.document_title or "N/A"`. -/
def orNA : Option String → String
  | some t => if t = "" then "N/A" else t
  | none => "N/A"

/-- Python f-string rendering of `doc.page_count` (`None` when absent). -/
def pageCountStr : Option Int → String
  | some n => toString n
  | none => "None"

/-- `build_prompt` from `workflow_small.py`: the f-string forwarded to the
extractor chain. -/
def buildPromptText (doc : DocInput) : String :=
  "\n        Document Details:\n        - Document URI: " ++ doc.document_uri ++
  "\n        - Document Title: " ++ orNA doc.document_title ++
  "\n        - Page Count: " ++ pageCountStr doc.page_count ++ "\n        "

/-- Modelled from the spec: the Run Engine (§4.3) driving the `workflow_small`
graph (the engine itself is the external agent framework, not under `src/`).
One `run_stream(doc_input)` pass walks the linear chain
`doc_prompt → extractor_node → extractor_result_node → compliance_node →
compliance_result_node → hitl_coordinator → human_review_exec`, with each
executor translated from `workflow_small.py`; `human_review_exec`
(`RequestInfoExecutor`) surfaces the coordinator's `ApprovalRequest` as a
request-info event under the framework-generated id `reqId`, and the pass ends
awaiting input. `extractorAgent`/`complianceAgent` abstract the external agent
calls; `rid` abstracts `uuid.uuid4()`. -/
def pass1 (loads : String → Option PyVal) (extractorAgent complianceAgent : String → String)
    (doc : DocInput) (rid reqId : String) (store : ApprovalContext) :
    Except PyErr (List WfEvent × ApprovalContext × ApprovalRequestMsg) :=
  match prepare_request loads rid (complianceAgent (extractorAgent (buildPromptText doc))) store with
  | .error e => .error e
  | .ok (store2, req) =>
      .ok ([ .progressEv "extraction" "running",
             .progressEv "extraction" "completed",
             .progressEv "compliance" "running",
             .progressEv "compliance" "completed",
             .requestInfoEv reqId req ], store2, req)

/-- Modelled from the spec: one resume pass (§4.3). The framework delivers the
answer as a `RequestResponse` to `hitl_coordinator.handle_response` (translated
from `workflow_small.py`), whose forwarded message reaches
`final_result_placeholder`, which yields it as the run's output. -/
def resumePass (resp : ApprovalResponse) (store : ApprovalContext) :
    List WfEvent × ApprovalContext :=
  let r := handle_response resp store
  ([.hitlEv r.2.1.status r.2.1.approval_id, .outputEv r.2.2], r.1)

/-! ## workflow_api.py: the SSE bridge and the approval endpoint -/

/-- The SSE records `format_sse` emits, tagged as in `workflow_api.py`. -/
inductive SSE where
  | connected
  | workflowStarted
  | workflowCompleted (result : Sent)
  | approvalRequired (request_id approval_id : String)
  | progress (phase status : String)
  | hitlStatus (status approval_id : String)
  | executorCompleted (executor_id : String)
  | waitingForApproval (count : Nat)
  | errorRec (message : String)

/-- One entry of the module-level `pending_approvals` dict: request id to the
session owning it plus the approval data (here its approval id). -/
structure PendingEntry where
  session_id : String
  approval_id : String

/-- The module-level `pending_approvals` table. -/
abbrev PendingTbl := List (String × PendingEntry)

/-- How one engine stream ends: it drains normally or raises (a step failure
propagating out of the `async for`, caught by the generator's outer handler). -/
inductive StreamEnd where
  | drained
  | raised (msg : String)

def StreamEnd.isRaised : StreamEnd → Bool
  | .drained => false
  | .raised _ => true

/-- One engine stream as observed by `event_generator`: its events followed by
how it ends. -/
structure EngineRound where
  events : List WfEvent
  ending : StreamEnd

/-- Result of the `async for event in stream` body in `event_generator`:
the SSE records yielded, the collected `request_info_events` (their ids),
the updated `pending_approvals` table, and the output datum if a
`WorkflowOutputEvent` caused an early `return`. -/
structure StreamOut where
  sses : List SSE
  reqs : List String
  tbl : PendingTbl
  output : Option Sent

/-- The `async for` body of `event_generator` (source lines 140-197):
output events yield `workflow_completed` and return; request-info events are
recorded in `pending_approvals` and yielded as `approval_required`; progress and
hitl dict events and executor completions are translated to their SSE records. -/
def processStream (sid : String) : List WfEvent → PendingTbl → StreamOut
  | [], tbl => ⟨[], [], tbl, none⟩
  | .outputEv d :: _, tbl => ⟨[.workflowCompleted d], [], tbl, some d⟩
  | .requestInfoEv rid req :: rest, tbl =>
      let tbl1 := alSet tbl rid ⟨sid, req.approval_id⟩
      let o := processStream sid rest tbl1
      ⟨.approvalRequired rid req.approval_id :: o.sses, rid :: o.reqs, o.tbl, o.output⟩
  | .progressEv ph stt :: rest, tbl =>
      let o := processStream sid rest tbl
      ⟨.progress ph stt :: o.sses, o.reqs, o.tbl, o.output⟩
  | .hitlEv stt aid :: rest, tbl =>
      let o := processStream sid rest tbl
      ⟨.hitlStatus stt aid :: o.sses, o.reqs, o.tbl, o.output⟩
  | .executorCompletedEv eid :: rest, tbl =>
      let o := processStream sid rest tbl
      ⟨.executorCompleted eid :: o.sses, o.reqs, o.tbl, o.output⟩

/-- The `all_responses_ready` check of the wait loop (source lines 211-215),
polled against the generator-local `pending_responses` dict. -/
def all_responses_ready (reqs : List String) (localPending : List (String × ApprovalResponse)) :
    Bool :=
  reqs.all (fun r => (alGet localPending r).isSome)

/-- The timeout error message of the wait loop. -/
def timeoutMsg : String := "Approval timeout - no response received"

/-- The `while True` loop of `event_generator` (source lines 130-231).
`localPending` is the generator-local `pending_responses` dict: it is
initialised to `{}`, consulted to choose between `run_stream` and
`send_responses_streaming`, cleared after use, and polled by the wait loop —
no statement in the source ever adds to it (the POST endpoint writes to
`workflow_sessions[sid]["pending_responses"]` instead). Because the polled
dict is constant while the loop sleeps, the wait loop's outcome is
`all_responses_ready` of that constant dict; on timeout the generator yields
the error record and returns, on a drained stream with no requests it breaks
with no terminal record. -/
def generatorLoop (sid : String) : List EngineRound → List (String × ApprovalResponse) →
    PendingTbl → List SSE × PendingTbl
  | [], _, tbl => ([], tbl)
  | r :: rest, localPending, tbl =>
    let o := processStream sid r.events tbl
    match o.output with
    | some _ => (o.sses, o.tbl)
    | none =>
      match r.ending with
      | .raised msg => (o.sses ++ [.errorRec msg], o.tbl)
      | .drained =>
        if o.reqs.isEmpty then (o.sses, o.tbl)
        else
          if all_responses_ready o.reqs localPending then
            let g := generatorLoop sid rest [] o.tbl
            (o.sses ++ [.waitingForApproval o.reqs.length] ++ g.1, g.2)
          else
            (o.sses ++ [.waitingForApproval o.reqs.length, .errorRec timeoutMsg], o.tbl)

/-- `event_generator` from `workflow_api.py` for one session: the initial
`connected` and `workflow_started` records followed by the loop, whose local
`pending_responses` starts empty. -/
def event_generator (sid : String) (rounds : List EngineRound) (tbl : PendingTbl) :
    List SSE × PendingTbl :=
  let g := generatorLoop sid rounds [] tbl
  (SSE.connected :: SSE.workflowStarted :: g.1, g.2)

/-- One entry of the module-level `workflow_sessions` dict; `pending_responses`
is `none` while the key is absent (it is created on first submission). -/
structure SessionRec where
  status : String
  document_uri : String
  pending_responses : Option (List (String × ApprovalResponse))

/-- The module-level mutable state of `workflow_api.py`. -/
structure ApiState where
  workflow_sessions : List (String × SessionRec)
  pending_approvals : PendingTbl

/-- `ApprovalDecision`, the request body of the POST approval endpoint. -/
structure ApprovalDecision where
  request_id : String
  approval_id : String
  approved : Bool
  comment : Option String

/-- Outcome of the POST approval endpoint: success body or a 404. -/
inductive SubmitResult where
  | ok (message : String) (approval_id : String)
  | err404 (detail : String)

/-- `submit_approval` from `workflow_api.py`: 404 when the request id is not in
`pending_approvals` or its session is gone; otherwise store the
`ApprovalResponse` in the session's `pending_responses` buffer and delete the
request id from `pending_approvals`. -/
def submit_approval (d : ApprovalDecision) (st : ApiState) : SubmitResult × ApiState :=
  match alGet st.pending_approvals d.request_id with
  | none => (.err404 "Approval request not found", st)
  | some pa =>
    match alGet st.workflow_sessions pa.session_id with
    | none => (.err404 "Workflow session not found", st)
    | some sess =>
      let resp : ApprovalResponse := ⟨d.approval_id, d.approved, d.comment⟩
      let buf := sess.pending_responses.getD []
      let sess2 : SessionRec :=
        { sess with pending_responses := some (alSet buf d.request_id resp) }
      ( .ok ("Approval " ++ (if d.approved then "granted" else "rejected")) d.approval_id,
        { workflow_sessions := alSet st.workflow_sessions pa.session_id sess2,
          pending_approvals := alErase st.pending_approvals d.request_id } )

/-- Terminal records of the external protocol: `workflow_completed` or `error`. -/
def SSE.isTerminal : SSE → Bool
  | .workflowCompleted _ => true
  | .errorRec _ => true
  | _ => false

/-- Number of terminal records in a stream. -/
def terminalCount (l : List SSE) : Nat := (l.filter SSE.isTerminal).length

/-! ## workflow_small.py: the blob result sink -/

/-- Python `os.environ[k]`: `KeyError` when absent. -/
def envGet (env : List (String × String)) (k : String) : Except PyErr String :=
  match alGet env k with
  | some v => .ok v
  | none => .error (.keyError k)

/-- Python `s.rstrip("/")`. -/
def rstripSlash (s : String) : String :=
  ((s.toList.reverse.dropWhile (fun c => c == '/')).reverse).asString

/-- The attributes of the class bound by `from datetime import datetime`
(the `datetime.datetime` type of the standard library). It has no attribute
named `datetime`. -/
def datetimeTypeAttrs : List String :=
  ["min", "max", "resolution", "year", "month", "day", "hour", "minute", "second",
   "microsecond", "tzinfo", "fold", "date", "time", "timetz", "replace", "astimezone",
   "utcoffset", "dst", "tzname", "timetuple", "utctimetuple", "toordinal", "timestamp",
   "weekday", "isoweekday", "isocalendar", "isoformat", "ctime", "strftime", "strptime",
   "now", "utcnow", "today", "fromtimestamp", "utcfromtimestamp", "fromordinal",
   "combine", "fromisoformat", "fromisocalendar"]

/-- The expression `datetime.datetime.utcnow().strftime("%Y/%m/%d")` of
`save_result_to_blob`: an attribute lookup of `"datetime"` on the class that
`from datetime import datetime` bound, raising `AttributeError`. The date
string of the (dead) success branch is a placeholder, since wall-clock time is
outside the model. -/
def utcnowDatePath : Except PyErr String :=
  if datetimeTypeAttrs.contains "datetime" then .ok "1970/01/01"
  else .error (.attributeError "datetime")

/-- An `upload_blob` call as issued by `save_result_to_blob`. -/
structure BlobUpload where
  blob_name : String
  data : List (String × PyVal)
  overwrite : Bool

/-- `save_result_to_blob` from `workflow_small.py`. `env` models `os.environ`;
`nameFromUri`/`stableId` abstract the pure helpers `_name_from_uri` and
`_stable_id` from `tools.utils` (not under `src/`). Credential acquisition and
`create_container` are external effects whose failures the source swallows or
that happen lazily, so they are not failure points of the model. A successful
run would return the `upload_blob` call and the yielded result record. -/
def save_result_to_blob (env : List (String × String))
    (nameFromUri stableId : String → String) (prev : List (String × PyVal)) :
    Except PyErr (BlobUpload × List (String × PyVal)) := do
  let account_url ← envGet env "AZURE_STORAGE_ACCOUNT_URL"
  let container ← envGet env "AZURE_STORAGE_CONTAINER"
  let src := pyStrOf ((alGet prev "source_uri").getD (.pstr "n/a"))
  let fname := nameFromUri src
  let rid := stableId (src ++ "|" ++ pyStrOf ((alGet prev "approval_id").getD (.pstr "")))
  let day ← utcnowDatePath
  let blob_name := "runs/" ++ day ++ "/" ++ fname ++ "-" ++ rid ++ ".json"
  let payload : List (String × PyVal) :=
    [("source_uri", .pstr src),
     ("status", (alGet prev "status").getD .pnone),
     ("comment", (alGet prev "comment").getD .pnone),
     ("approval_id", (alGet prev "approval_id").getD .pnone),
     ("preview", (alGet prev "preview").getD .pnone),
     ("timestamp_utc", (alGet prev "timestamp_utc").getD .pnone),
     ("workflow", .pdict [("name", .pstr "doc_20_page_workflow"),
                          ("node", .pstr "save_results"),
                          ("version", .pstr "v1")])]
  let blob_url := rstripSlash account_url ++ "/" ++ container ++ "/" ++ blob_name
  let result := payload ++ [("blob_url", .pstr blob_url), ("blob_name", .pstr blob_name),
                            ("container", .pstr container)]
  return (⟨blob_name, payload, true⟩, result)

/-! ## Structural lemmas about the bridge -/

theorem processStream_terminal (sid : String) (evs : List WfEvent) (tbl : PendingTbl) :
    terminalCount (processStream sid evs tbl).sses =
      if (processStream sid evs tbl).output.isSome then 1 else 0 := by
  induction evs generalizing tbl with
  | nil => rfl
  | cons ev rest ih =>
    cases ev with
    | outputEv d => simp [processStream, terminalCount, List.filter, SSE.isTerminal]
    | requestInfoEv rid req => simpa [processStream, terminalCount, List.filter, SSE.isTerminal] using ih _
    | progressEv ph stt => simpa [processStream, terminalCount, List.filter, SSE.isTerminal] using ih _
    | hitlEv stt aid => simpa [processStream, terminalCount, List.filter, SSE.isTerminal] using ih _
    | executorCompletedEv eid => simpa [processStream, terminalCount, List.filter, SSE.isTerminal] using ih _

theorem processStream_no_completed (sid : String) (evs : List WfEvent) (tbl : PendingTbl)
    (h : (processStream sid evs tbl).output = none) :
    ∀ s, SSE.workflowCompleted s ∉ (processStream sid evs tbl).sses := by
  induction evs generalizing tbl with
  | nil => intro s; simp [processStream]
  | cons ev rest ih =>
    cases ev with
    | outputEv d => simp [processStream] at h
    | requestInfoEv rid req =>
        intro s
        simp only [processStream] at h ⊢
        simpa using ih _ h s
    | progressEv ph stt =>
        intro s
        simp only [processStream] at h ⊢
        simpa using ih _ h s
    | hitlEv stt aid =>
        intro s
        simp only [processStream] at h ⊢
        simpa using ih _ h s
    | executorCompletedEv eid =>
        intro s
        simp only [processStream] at h ⊢
        simpa using ih _ h s

theorem processStream_tbl_mono (sid : String) (evs : List WfEvent) (tbl : PendingTbl)
    (rid : String) (h : (alGet tbl rid).isSome) :
    (alGet (processStream sid evs tbl).tbl rid).isSome := by
  induction evs generalizing tbl with
  | nil => simpa [processStream] using h
  | cons ev rest ih =>
    cases ev with
    | outputEv d => simpa [processStream] using h
    | requestInfoEv r req =>
        simp only [processStream]
        exact ih _ (alGet_set_isSome _ _ _ _ h)
    | progressEv ph stt => simp only [processStream]; exact ih _ h
    | hitlEv stt aid => simp only [processStream]; exact ih _ h
    | executorCompletedEv eid => simp only [processStream]; exact ih _ h

theorem processStream_reqs_isSome (sid : String) (evs : List WfEvent) (tbl : PendingTbl) :
    ∀ rid ∈ (processStream sid evs tbl).reqs,
      (alGet (processStream sid evs tbl).tbl rid).isSome := by
  induction evs generalizing tbl with
  | nil => intro rid h; simp [processStream] at h
  | cons ev rest ih =>
    cases ev with
    | outputEv d => intro rid h; simp [processStream] at h
    | requestInfoEv r req =>
        intro rid h
        simp only [processStream, List.mem_cons] at h ⊢
        rcases h with h | h
        · subst h
          exact processStream_tbl_mono sid rest (alSet tbl rid ⟨sid, req.approval_id⟩) rid
            (by simp [alGet_set])
        · exact ih _ rid h
    | progressEv ph stt =>
        intro rid h
        simp only [processStream] at h ⊢
        exact ih _ rid h
    | hitlEv stt aid =>
        intro rid h
        simp only [processStream] at h ⊢
        exact ih _ rid h
    | executorCompletedEv eid =>
        intro rid h
        simp only [processStream] at h ⊢
        exact ih _ rid h

theorem all_responses_ready_nil (reqs : List String) (h : reqs ≠ []) :
    all_responses_ready reqs [] = false := by
  cases reqs with
  | nil => exact absurd rfl h
  | cons r t => simp [all_responses_ready, alGet]

/-- With an empty local `pending_responses` the wait loop can never observe the
answers, so the ready branch of the generator loop is unreachable. -/
theorem generatorLoop_cons (sid : String) (r : EngineRound) (rest : List EngineRound)
    (tbl : PendingTbl) :
    generatorLoop sid (r :: rest) [] tbl =
      (let o := processStream sid r.events tbl
       match o.output with
       | some _ => (o.sses, o.tbl)
       | none =>
         match r.ending with
         | .raised msg => (o.sses ++ [.errorRec msg], o.tbl)
         | .drained =>
           if o.reqs.isEmpty then (o.sses, o.tbl)
           else (o.sses ++ [.waitingForApproval o.reqs.length, .errorRec timeoutMsg], o.tbl)) := by
  cases ho : (processStream sid r.events tbl).output with
  | some d => simp [generatorLoop, ho]
  | none =>
      cases he : r.ending with
      | raised msg => simp [generatorLoop, ho, he]
      | drained =>
          by_cases hr : (processStream sid r.events tbl).reqs.isEmpty
          · simp [generatorLoop, ho, he, hr]
          · have hne : (processStream sid r.events tbl).reqs ≠ [] := by
              cases hq : (processStream sid r.events tbl).reqs with
              | nil => rw [hq] at hr; exact absurd rfl hr
              | cons a t => simp
            simp [generatorLoop, ho, he, hr, all_responses_ready_nil _ hne]

/-! ## Claim theorems -/

/-- A concrete `json.loads` instance: parses the empty-object literal and
nothing else. -/
def loadsEx : String → Option PyVal :=
  fun s => if s = emptyObjLiteral then some (.pdict []) else none

/-- The default prompt of `HumanReviewPacket`. -/
def reviewPrompt : String := "Approve or Reject? (type \x27approve\x27 / \x27reject\x27)"

/-- C10 (amended): for every compliance-agent output that is not valid JSON the
adapter never takes the auto-pass branch. For a nonempty non-JSON string,
`_parse_compliance_json` returns the forced-review object
(`needs_human_review = true`, the raw text as a note) and `on_compliance`
routes to human review with the raw text as the packet's notes; the empty
string — also not valid JSON — is replaced by `"{}"` before parsing, so it
yields `needs_human_review = false`, yet is still routed to human review
because `is_compliant` defaults to false. -/
theorem C10_nonjson_never_autopass
    (loads : String → Option PyVal) (et du text : String)
    (hempty : loads emptyObjLiteral = some (.pdict []))
    (hbad : loads text = none) :
    (text ≠ "" →
      parse_compliance_json loads text = forcedReviewObj text ∧
      on_compliance loads et du text =
        .ok (.human_review ⟨du, pyTake et 1000, text, reviewPrompt⟩)) ∧
    (text = "" →
      on_compliance loads et du text =
        .ok (.human_review ⟨du, pyTake et 1000, "(no notes)", reviewPrompt⟩)) := by
  constructor
  · intro hne
    have hp : parse_compliance_json loads text = forcedReviewObj text := by
      simp [parse_compliance_json, hne, hbad]
    refine ⟨hp, ?_⟩
    have hj : String.intercalate "; " [text] = text := rfl
    simp [on_compliance, hp, forcedReviewObj, pyGetE, alGet, truthy, notesJoin, pyStrOf,
      Bind.bind, Except.bind, reviewPrompt, hne, pure, Except.pure, hj]
  · intro he
    subst he
    simp [on_compliance, parse_compliance_json, hempty, pyGetE, alGet, alSet, alErase,
      truthy, notesJoin, Bind.bind, Except.bind, reviewPrompt, pure, Except.pure,
      String.intercalate]

/-- C10 counterexample: the empty string is not valid JSON (`loadsEx "" = none`),
yet `_parse_compliance_json` does not force `needs_human_review` to true on it —
the `text or "{}"` guard parses `"{}"` instead and `setdefault` puts in `false`. -/
theorem C10_counterexample_empty_text :
    loadsEx "" = none ∧
    pyGetE (parse_compliance_json loadsEx "") "needs_human_review" (.pbool false) =
      .ok (.pbool false) ∧
    pyGetE (forcedReviewObj "") "needs_human_review" (.pbool false) =
      .ok (.pbool true) :=
  ⟨rfl, rfl, rfl⟩

/-- C10 witness: the amended theorem at a concrete nonempty non-JSON string. -/
theorem C10_witness :
    loadsEx emptyObjLiteral = some (.pdict []) ∧ loadsEx "abc" = none ∧
    parse_compliance_json loadsEx "abc" = forcedReviewObj "abc" ∧
    on_compliance loadsEx "SUM" "doc-1" "abc" =
      .ok (.human_review ⟨"doc-1", pyTake "SUM" 1000, "abc", reviewPrompt⟩) := by
  have h := (C10_nonjson_never_autopass loadsEx "SUM" "doc-1" "abc" rfl rfl).1
    (by intro hfalse; exact absurd hfalse (by decide))
  exact ⟨rfl, rfl, h.1, h.2⟩

/-- C9: for every input record, `save_result_to_blob` fails with an
`AttributeError` at the date-path computation — `from datetime import datetime`
binds the class itself, which has no attribute `datetime`, so
`datetime.datetime.utcnow()` raises — and therefore never reaches the
`upload_blob` call or `yield_output`. -/
theorem C9_save_always_attribute_error
    (env : List (String × String)) (f g : String → String) (prev : List (String × PyVal))
    (u c : String)
    (hu : envGet env "AZURE_STORAGE_ACCOUNT_URL" = .ok u)
    (hc : envGet env "AZURE_STORAGE_CONTAINER" = .ok c) :
    save_result_to_blob env f g prev = .error (.attributeError "datetime") ∧
    ∀ r, save_result_to_blob env f g prev ≠ .ok r := by
  have hd : utcnowDatePath = Except.error (PyErr.attributeError "datetime") := rfl
  have h1 : save_result_to_blob env f g prev = .error (.attributeError "datetime") := by
    simp [save_result_to_blob, hu, hc, hd, Bind.bind, Except.bind]
  refine ⟨h1, ?_⟩
  intro r hfalse
  rw [h1] at hfalse
  exact Except.noConfusion hfalse

/-- Concrete environment for the C9 witness. -/
def envEx : List (String × String) :=
  [("AZURE_STORAGE_ACCOUNT_URL", "https://acct.blob.core.windows.net"),
   ("AZURE_STORAGE_CONTAINER", "doc-workflow-results")]

/-- C9 witness: the theorem at a concrete environment and input record. -/
theorem C9_witness :
    envGet envEx "AZURE_STORAGE_ACCOUNT_URL" = .ok "https://acct.blob.core.windows.net" ∧
    save_result_to_blob envEx id id [] = .error (.attributeError "datetime") :=
  ⟨rfl, (C9_save_always_attribute_error envEx id id []
    "https://acct.blob.core.windows.net" "doc-workflow-results" rfl rfl).1⟩

theorem prepare_request_store (loads : String → Option PyVal) (rid prev : String)
    (store store2 : ApprovalContext) (req : ApprovalRequestMsg)
    (h : prepare_request loads rid prev store = .ok (store2, req)) :
    alGet store2 rid = some ⟨prev, req.source_uri, req.preview⟩ := by
  unfold prepare_request at h
  split at h
  · injection h with h3
    cases h3
    simp [alGet_set, approvalRequestOf]
  · injection h with h3
    cases h3
    simp [alGet_set, approvalRequestOf]
  · exact Except.noConfusion h
  · injection h with h3
    cases h3
    simp [alGet_set, approvalRequestOf]

/-- C7: resuming any suspended run with a decision of false makes the
coordinator forward the rejection record — `overall_status: rejected_by_human`
with the comment (or `"Rejected"`) as remarks, not the in-flight payload — and
the final executor yields it, which the bridge reports as the terminal
`workflow_completed` record. -/
theorem C7_reject_yields_rejected_output
    (resp : ApprovalResponse) (store : ApprovalContext) (sid : String) (tbl : PendingTbl)
    (h : resp.approved = false) :
    (resumePass resp store).1 =
      [.hitlEv "rejected" resp.approval_id,
       .outputEv (.dumped (rejectionDict (commentOr resp.comment)))] ∧
    pyGetE (rejectionDict (commentOr resp.comment)) "overall_status" .pnone =
      .ok (.pstr "rejected_by_human") ∧
    (∀ c, resp.comment = some c → c ≠ "" → commentOr resp.comment = c) ∧
    (processStream sid (resumePass resp store).1 tbl).output =
      some (.dumped (rejectionDict (commentOr resp.comment))) ∧
    SSE.workflowCompleted (.dumped (rejectionDict (commentOr resp.comment))) ∈
      (processStream sid (resumePass resp store).1 tbl).sses := by
  obtain ⟨aid, app, com⟩ := resp
  simp only at h
  subst h
  have h1 : (resumePass ⟨aid, false, com⟩ store).1 =
      [.hitlEv "rejected" aid, .outputEv (.dumped (rejectionDict (commentOr com)))] := by
    cases hi : alGet store aid <;> simp [resumePass, handle_response, hi]
  refine ⟨h1, by simp [pyGetE, rejectionDict, alGet], ?_, ?_, ?_⟩
  · intro c hc hcne
    subst hc
    simp [commentOr, hcne]
  · rw [h1]; simp [processStream]
  · rw [h1]; simp [processStream]

/-- C7 witness: the theorem at a concrete rejected answer with a comment. -/
theorem C7_witness :
    (ApprovalResponse.mk "a1" false (some "bad doc")).approved = false ∧
    (resumePass ⟨"a1", false, some "bad doc"⟩
        [("a1", ⟨"PLD", .pstr "u", .pstr "p"⟩)]).1 =
      [.hitlEv "rejected" "a1", .outputEv (.dumped (rejectionDict "bad doc"))] ∧
    commentOr (some "bad doc") = "bad doc" :=
  ⟨rfl,
   (C7_reject_yields_rejected_output ⟨"a1", false, some "bad doc"⟩
      [("a1", ⟨"PLD", .pstr "u", .pstr "p"⟩)] "s1" [] rfl).1,
   (C7_reject_yields_rejected_output ⟨"a1", false, some "bad doc"⟩
      [("a1", ⟨"PLD", .pstr "u", .pstr "p"⟩)] "s1" [] rfl).2.2.1 "bad doc" rfl
      (by intro hfalse; exact absurd hfalse (by decide))⟩

/-- C6 (amended): a suspend followed by a resume with the exact matching
approved answer forwards downstream exactly the in-flight payload — identical
to the synchronous behaviour — provided the in-flight payload is a nonempty
string (the coordinator's `response.approved and payload` guard treats an
empty cached payload as falsy). -/
theorem C6_roundtrip_nonempty_payload
    (loads : String → Option PyVal) (rid payload : String) (store : ApprovalContext)
    (store2 : ApprovalContext) (req : ApprovalRequestMsg) (c : Option String)
    (hne : payload ≠ "")
    (hok : prepare_request loads rid payload store = .ok (store2, req)) :
    (handle_response ⟨rid, true, c⟩ store2).2.2 = syncDownstream payload ∧
    roundTrip loads rid payload store = .ok (syncDownstream payload) := by
  have hs := prepare_request_store loads rid payload store store2 req hok
  have h1 : (handle_response ⟨rid, true, c⟩ store2).2.2 = .payloadMsg payload := by
    simp [handle_response, hs, hne]
  have h2 : (handle_response ⟨rid, true, none⟩ store2).2.2 = .payloadMsg payload := by
    simp [handle_response, hs, hne]
  refine ⟨h1, ?_⟩
  simp [roundTrip, hok, h2, syncDownstream]

/-- A `json.loads` that fails on every input. -/
def loadsNone : String → Option PyVal := fun _ => none

/-- C6 counterexample: with an empty in-flight payload the round trip does not
reproduce the synchronous result — the approved answer comes back as the
rejection record because Python truthiness treats the cached `""` as absent. -/
theorem C6_counterexample_empty_payload :
    roundTrip loadsNone "r1" "" [] = .ok (.dumped (rejectionDict "Rejected")) ∧
    roundTrip loadsNone "r1" "" [] ≠ .ok (syncDownstream "") := by
  have h1 : roundTrip loadsNone "r1" "" [] = .ok (.dumped (rejectionDict "Rejected")) := rfl
  refine ⟨h1, ?_⟩
  rw [h1]
  intro hfalse
  injection hfalse with h2
  exact Sent.noConfusion h2

/-- C6 witness: the amended theorem at a concrete nonempty payload. -/
theorem C6_witness :
    "PAY" ≠ "" ∧
    prepare_request loadsNone "r1" "PAY" [] =
      .ok ([("r1", ⟨"PAY", .pstr "PAY", .pstr "Testing HITL for document: PAY"⟩)],
           approvalRequestOf "r1" (.pstr "PAY") (.pstr "Testing HITL for document: PAY")) ∧
    roundTrip loadsNone "r1" "PAY" [] = .ok (syncDownstream "PAY") :=
  ⟨by decide, rfl,
   (C6_roundtrip_nonempty_payload loadsNone "r1" "PAY" []
      [("r1", ⟨"PAY", .pstr "PAY", .pstr "Testing HITL for document: PAY"⟩)]
      (approvalRequestOf "r1" (.pstr "PAY") (.pstr "Testing HITL for document: PAY"))
      none (by decide) rfl).2⟩

/-- C4 (amended): an answer whose request id is unknown at the submit entry
point is rejected with 404 and leaves the module state unchanged; at the
coordinator, however, an answer whose approval id matches no outstanding
request raises no `CorrelationError` — `APPROVAL_CONTEXT.pop(id, {})` yields an
empty record and the coordinator forwards the rejection record downstream,
advancing the run. -/
theorem C4_unknown_id_404_but_no_engine_error :
    (∀ (d : ApprovalDecision) (st : ApiState),
       alGet st.pending_approvals d.request_id = none →
       submit_approval d st = (.err404 "Approval request not found", st)) ∧
    (∀ (resp : ApprovalResponse) (store : ApprovalContext),
       alGet store resp.approval_id = none →
       (handle_response resp store).2.2 = .dumped (rejectionDict (commentOr resp.comment))) := by
  constructor
  · intro d st h
    simp [submit_approval, h]
  · intro resp store h
    simp [handle_response, h]

/-- C4 counterexample: an approved answer with an unmatched approval id is
processed without error and drives the run all the way to a terminal output
(the rejection record) — the claim's "does not advance the run" fails at the
coordinator. -/
theorem C4_counterexample_unmatched_advances :
    alGet ([] : ApprovalContext) "zz" = none ∧
    (processStream "s" (resumePass ⟨"zz", true, none⟩ []).1 []).output =
      some (.dumped (rejectionDict "Rejected")) :=
  ⟨rfl, rfl⟩

/-- C4 witness: the amended theorem at concrete unknown ids. -/
theorem C4_witness :
    submit_approval ⟨"nope", "a1", true, none⟩ ⟨[("s1", ⟨"initializing", "doc-1", none⟩)], []⟩ =
      (.err404 "Approval request not found", ⟨[("s1", ⟨"initializing", "doc-1", none⟩)], []⟩) ∧
    (handle_response ⟨"nope", true, none⟩ ([] : ApprovalContext)).2.2 =
      .dumped (rejectionDict "Rejected") :=
  ⟨C4_unknown_id_404_but_no_engine_error.1 ⟨"nope", "a1", true, none⟩
      ⟨[("s1", ⟨"initializing", "doc-1", none⟩)], []⟩ rfl,
   C4_unknown_id_404_but_no_engine_error.2 ⟨"nope", true, none⟩ [] rfl⟩

/-- C5: consuming a stored request id through the submit entry point is
exactly-once — the first call succeeds using the stored request (routing the
answer to its session's buffer) and deletes the id; a second call with the same
id gets the not-found 404 and leaves the state unchanged, exactly as an unknown
id would. -/
theorem C5_take_twice_exactly_once
    (st : ApiState) (r : String) (pa : PendingEntry) (sess : SessionRec)
    (d : ApprovalDecision)
    (hr : d.request_id = r)
    (hp : alGet st.pending_approvals r = some pa)
    (hs : alGet st.workflow_sessions pa.session_id = some sess) :
    (submit_approval d st).1 =
      .ok ("Approval " ++ (if d.approved then "granted" else "rejected")) d.approval_id ∧
    alGet (submit_approval d st).2.pending_approvals r = none ∧
    alGet (submit_approval d st).2.workflow_sessions pa.session_id =
      some { sess with
        pending_responses := some (alSet (sess.pending_responses.getD []) r
          ⟨d.approval_id, d.approved, d.comment⟩) } ∧
    (∀ d2 : ApprovalDecision, d2.request_id = r →
      submit_approval d2 (submit_approval d st).2 =
        (.err404 "Approval request not found", (submit_approval d st).2)) := by
  obtain ⟨rid, aid, app, com⟩ := d
  simp only at hr
  subst hr
  refine ⟨?_, ?_, ?_, ?_⟩
  · simp [submit_approval, hp, hs]
  · simp [submit_approval, hp, hs, alGet_erase]
  · simp [submit_approval, hp, hs, alGet_set]
  · intro d2 h2
    have hnone : alGet (submit_approval ⟨rid, aid, app, com⟩ st).2.pending_approvals
        d2.request_id = none := by
      rw [h2]
      simp [submit_approval, hp, hs, alGet_erase]
    generalize hgen : (submit_approval ⟨rid, aid, app, com⟩ st).2 = st1 at hnone ⊢
    simp [submit_approval, hnone]

/-- C5 witness: the theorem at a concrete store holding one request. -/
theorem C5_witness :
    alGet [("r1", PendingEntry.mk "s1" "a1")] "r1" = some ⟨"s1", "a1"⟩ ∧
    (submit_approval ⟨"r1", "a1", true, none⟩
        ⟨[("s1", ⟨"initializing", "doc-1", none⟩)], [("r1", ⟨"s1", "a1"⟩)]⟩).1 =
      .ok "Approval granted" "a1" ∧
    (∀ d2 : ApprovalDecision, d2.request_id = "r1" →
      submit_approval d2 (submit_approval ⟨"r1", "a1", true, none⟩
          ⟨[("s1", ⟨"initializing", "doc-1", none⟩)], [("r1", ⟨"s1", "a1"⟩)]⟩).2 =
        (.err404 "Approval request not found",
         (submit_approval ⟨"r1", "a1", true, none⟩
            ⟨[("s1", ⟨"initializing", "doc-1", none⟩)], [("r1", ⟨"s1", "a1"⟩)]⟩).2)) := by
  have h := C5_take_twice_exactly_once
    ⟨[("s1", ⟨"initializing", "doc-1", none⟩)], [("r1", ⟨"s1", "a1"⟩)]⟩ "r1" ⟨"s1", "a1"⟩
    ⟨"initializing", "doc-1", none⟩ ⟨"r1", "a1", true, none⟩ rfl rfl rfl
  exact ⟨rfl, h.1, h.2.2.2⟩

/-- The request the coordinator builds when the compliance text parses to a
dict with no uri/summary fields. -/
def plainReq : ApprovalRequestMsg :=
  ⟨"a1", "Manual approval required", "Please review the extracted result.",
   .pstr "n/a", .pstr "No preview"⟩

/-- One awaiting-approval engine round with a single outstanding request. -/
def oneReqRound : EngineRound := ⟨[.requestInfoEv "r1" plainReq], .drained⟩

/-- The module state after the one-request round registered its approval. -/
def oneReqState : ApiState :=
  ⟨[("s1", ⟨"initializing", "doc-1", none⟩)], (event_generator "s1" [oneReqRound] []).2⟩

/-- C1 (the code at the failing input): the generator's wait loop polls its
local `pending_responses` dict, which no code path ever fills — the POST
endpoint writes to `workflow_sessions[sid]["pending_responses"]` instead. So
even though `submit_approval` for the one outstanding request succeeds and
stores the answer in the session buffer, the event stream times out and never
emits `workflow_completed`: the submitted answer never reaches the buffer the
wait loop polls. -/
theorem C1_submitted_answer_never_reaches_poll :
    (event_generator "s1" [oneReqRound] []).1 =
      [SSE.connected, SSE.workflowStarted, SSE.approvalRequired "r1" "a1",
       SSE.waitingForApproval 1, SSE.errorRec timeoutMsg] ∧
    (submit_approval ⟨"r1", "a1", true, none⟩ oneReqState).1 = .ok "Approval granted" "a1" ∧
    alGet (submit_approval ⟨"r1", "a1", true, none⟩ oneReqState).2.workflow_sessions "s1" =
      some ⟨"initializing", "doc-1", some [("r1", ⟨"a1", true, none⟩)]⟩ ∧
    (∀ s, SSE.workflowCompleted s ∉ (event_generator "s1" [oneReqRound] []).1) := by
  refine ⟨rfl, rfl, rfl, ?_⟩
  intro s
  have hg : (event_generator "s1" [oneReqRound] []).1 =
      [SSE.connected, SSE.workflowStarted, SSE.approvalRequired "r1" "a1",
       SSE.waitingForApproval 1, SSE.errorRec timeoutMsg] := rfl
  rw [hg]
  simp

/-- C3 (amended): when an awaiting-approval pass times out, the stream's last
record is the timeout error and the generator returns without resuming
(no `workflow_completed` is ever emitted), but the outstanding request ids of
the session are NOT removed from the correlation table — `pending_approvals`
keeps every id the pass registered. -/
theorem C3_timeout_error_but_ids_remain
    (sid : String) (r : EngineRound) (tbl : PendingTbl)
    (hout : (processStream sid r.events tbl).output = none)
    (hend : r.ending = .drained)
    (hreq : (processStream sid r.events tbl).reqs ≠ []) :
    (∃ pre, (event_generator sid [r] tbl).1 = pre ++ [.errorRec timeoutMsg]) ∧
    (∀ s, SSE.workflowCompleted s ∉ (event_generator sid [r] tbl).1) ∧
    (∀ rid ∈ (processStream sid r.events tbl).reqs,
      (alGet (event_generator sid [r] tbl).2 rid).isSome) := by
  have hie : (processStream sid r.events tbl).reqs.isEmpty = false := by
    cases hq : (processStream sid r.events tbl).reqs with
    | nil => exact absurd hq hreq
    | cons a t => rfl
  have hg1 : generatorLoop sid [r] [] tbl =
      ((processStream sid r.events tbl).sses ++
        [.waitingForApproval (processStream sid r.events tbl).reqs.length, .errorRec timeoutMsg],
       (processStream sid r.events tbl).tbl) := by
    rw [generatorLoop_cons]
    simp [hout, hend, hie]
  refine ⟨?_, ?_, ?_⟩
  · refine ⟨SSE.connected :: SSE.workflowStarted ::
      ((processStream sid r.events tbl).sses ++
        [.waitingForApproval (processStream sid r.events tbl).reqs.length]), ?_⟩
    simp [event_generator, hg1]
  · intro s
    have hnc := processStream_no_completed sid r.events tbl hout s
    simp [event_generator, hg1, List.mem_append]
    exact hnc
  · intro rid hrid
    have := processStream_reqs_isSome sid r.events tbl rid hrid
    simpa [event_generator, hg1] using this

/-- A second outstanding request for the two-request timeout scenario. -/
def plainReqB : ApprovalRequestMsg :=
  ⟨"a2", "Manual approval required", "Please review the extracted result.",
   .pstr "n/a", .pstr "No preview"⟩

/-- An awaiting-approval round with two outstanding requests. -/
def twoReqRound : EngineRound :=
  ⟨[.requestInfoEv "r1" plainReq, .requestInfoEv "r2" plainReqB], .drained⟩

/-- Module state after the two-request round registered its approvals. -/
def twoReqState : ApiState :=
  ⟨[("s1", ⟨"initializing", "doc-1", none⟩)], (event_generator "s1" [twoReqRound] []).2⟩

/-- C3 counterexample: two outstanding requests, one answered before the
timeout. The stream's last record is the timeout error, yet the unanswered
request id `r2` still exists in `pending_approvals` (the claim says every
outstanding id is removed), and the partially submitted answer for `r1` is
still sitting in the session's buffer (the claim says it is discarded). -/
theorem C3_counterexample_ids_not_purged :
    (event_generator "s1" [twoReqRound] []).1.getLast? = some (.errorRec timeoutMsg) ∧
    alGet (submit_approval ⟨"r1", "a1", true, none⟩ twoReqState).2.pending_approvals "r2" =
      some ⟨"s1", "a2"⟩ ∧
    alGet (submit_approval ⟨"r1", "a1", true, none⟩ twoReqState).2.workflow_sessions "s1" =
      some ⟨"initializing", "doc-1", some [("r1", ⟨"a1", true, none⟩)]⟩ :=
  ⟨rfl, rfl, rfl⟩

/-- C3 witness: the amended theorem at the single-request round. -/
theorem C3_witness :
    (processStream "s1" [WfEvent.requestInfoEv "r1" plainReq] []).output = none ∧
    (∃ pre, (event_generator "s1" [oneReqRound] []).1 = pre ++ [.errorRec timeoutMsg]) ∧
    (∀ rid ∈ (processStream "s1" [WfEvent.requestInfoEv "r1" plainReq] []).reqs,
      (alGet (event_generator "s1" [oneReqRound] []).2 rid).isSome) := by
  have h := C3_timeout_error_but_ids_remain "s1" oneReqRound [] rfl rfl
    (by intro hfalse; exact List.noConfusion hfalse)
  exact ⟨rfl, h.1, h.2.2⟩

/-- Terminal records of the generator output equal those of its loop (the
`connected` and `workflow_started` prelude records are not terminal). -/
theorem terminalCount_gen (sid : String) (rounds : List EngineRound) (tbl : PendingTbl) :
    terminalCount (event_generator sid rounds tbl).1 =
      terminalCount (generatorLoop sid rounds [] tbl).1 := by
  simp [event_generator, terminalCount, List.filter, SSE.isTerminal]

/-- C8 (amended): per session the bridge emits at most one terminal record,
and exactly one whenever the run yields output, raises, or suspends and times
out; on the path where the stream drains with no output and no outstanding
requests it emits none (the `break` ends the generator with no terminal
record). -/
theorem C8_terminal_record_count (sid : String) (rounds : List EngineRound) (tbl : PendingTbl) :
    terminalCount (event_generator sid rounds tbl).1 ≤ 1 ∧
    (∀ r rest, rounds = r :: rest →
      terminalCount (event_generator sid rounds tbl).1 =
        (if (processStream sid r.events tbl).output.isSome then 1
         else if r.ending.isRaised then 1
         else if (processStream sid r.events tbl).reqs.isEmpty then 0 else 1)) := by
  have happ : ∀ a b : List SSE, terminalCount (a ++ b) = terminalCount a + terminalCount b := by
    intro a b
    simp [terminalCount, List.filter_append]
  have key : ∀ (r : EngineRound) (rest : List EngineRound),
      terminalCount (generatorLoop sid (r :: rest) [] tbl).1 =
        (if (processStream sid r.events tbl).output.isSome then 1
         else if r.ending.isRaised then 1
         else if (processStream sid r.events tbl).reqs.isEmpty then 0 else 1) := by
    intro r rest
    rw [generatorLoop_cons]
    have hterm := processStream_terminal sid r.events tbl
    cases ho : (processStream sid r.events tbl).output with
    | some d =>
        rw [ho] at hterm
        simpa [ho] using hterm
    | none =>
        rw [ho] at hterm
        simp at hterm
        cases he : r.ending with
        | raised m =>
            simp [ho, he]
            rw [happ, hterm]
            rfl
        | drained =>
            by_cases hie : (processStream sid r.events tbl).reqs.isEmpty
            · simp [ho, he, hie]
              exact hterm
            · simp [ho, he, hie]
              rw [happ, hterm]
              rfl
  constructor
  · cases rounds with
    | nil =>
        have h0 : terminalCount (event_generator sid [] tbl).1 = 0 := rfl
        rw [h0]
        exact Nat.zero_le 1
    | cons r rest =>
        rw [terminalCount_gen, key r rest]
        split
        · exact le_refl 1
        · split
          · exact le_refl 1
          · split
            · exact Nat.zero_le 1
            · exact le_refl 1
  · intro r rest hr
    subst hr
    rw [terminalCount_gen, key r rest]

/-- C8 counterexample: a stream that drains with no output and no outstanding
requests ends the generator with zero terminal records, not exactly one. -/
theorem C8_counterexample_drain_no_terminal :
    (event_generator "s1" [⟨[], .drained⟩] []).1 = [SSE.connected, SSE.workflowStarted] ∧
    terminalCount (event_generator "s1" [⟨[], .drained⟩] []).1 = 0 :=
  ⟨rfl, rfl⟩

/-- C8 witness: the amended count formula at a concrete run that yields
output. -/
theorem C8_witness :
    terminalCount (event_generator "s1" [⟨[WfEvent.outputEv (.payloadMsg "done")], .drained⟩] []).1
      = 1 := by
  have h := (C8_terminal_record_count "s1"
      [⟨[WfEvent.outputEv (.payloadMsg "done")], .drained⟩] []).2
    ⟨[WfEvent.outputEv (.payloadMsg "done")], .drained⟩ [] rfl
  rw [h]
  rfl

/-- C2 (amended): in `workflow_small` the human-approval step is never skipped.
For every compliance result — compliant or not — a pass that reaches the
coordinator emits `progress(extraction, completed)` and
`progress(compliance, completed)`, ends with a request-info event and no
output event, and the bridged stream therefore contains `approval_required`
and no `workflow_completed` record: `compliance_result_node` is wired
unconditionally into `hitl_coordinator`, which always sends an
`ApprovalRequest`. -/
theorem C2_compliant_run_still_emits_approval
    (loads : String → Option PyVal) (ea ca : String → String) (doc : DocInput)
    (rid reqId sid : String) (store : ApprovalContext) (tbl : PendingTbl)
    (evs : List WfEvent) (store2 : ApprovalContext) (req : ApprovalRequestMsg)
    (hok : pass1 loads ea ca doc rid reqId store = .ok (evs, store2, req)) :
    WfEvent.progressEv "extraction" "completed" ∈ evs ∧
    WfEvent.progressEv "compliance" "completed" ∈ evs ∧
    WfEvent.requestInfoEv reqId req ∈ evs ∧
    (∀ d, WfEvent.outputEv d ∉ evs) ∧
    SSE.approvalRequired reqId req.approval_id ∈ (event_generator sid [⟨evs, .drained⟩] tbl).1 ∧
    (∀ s, SSE.workflowCompleted s ∉ (event_generator sid [⟨evs, .drained⟩] tbl).1) := by
  unfold pass1 at hok
  split at hok
  · exact Except.noConfusion hok
  · rename_i store2p reqp heqp
    injection hok with h3
    injection h3 with h4 h5
    injection h5 with h6 h7
    subst evs
    subst store2
    subst req
    have hg : (event_generator sid
        [⟨[ .progressEv "extraction" "running",
            .progressEv "extraction" "completed",
            .progressEv "compliance" "running",
            .progressEv "compliance" "completed",
            .requestInfoEv reqId reqp ], .drained⟩] tbl).1 =
      [SSE.connected, SSE.workflowStarted,
       SSE.progress "extraction" "running", SSE.progress "extraction" "completed",
       SSE.progress "compliance" "running", SSE.progress "compliance" "completed",
       SSE.approvalRequired reqId reqp.approval_id,
       SSE.waitingForApproval 1, SSE.errorRec timeoutMsg] := rfl
    refine ⟨by simp, by simp, by simp, ?_, ?_, ?_⟩
    · intro d
      simp
    · rw [hg]
      simp
    · intro s
      rw [hg]
      simp

/-- The concrete compliant evaluator output used for the C2 scenario. -/
def compliantJson : String := "\x7b\"compliant\": true\x7d"

/-- A `json.loads` instance that parses the compliant evaluator output. -/
def loadsCompliant : String → Option PyVal :=
  fun s => if s = compliantJson then some (.pdict [("compliant", .pbool true)]) else none

/-- The compliance evaluator of the scenario: it reports compliant. -/
def evaluatorCompliant : String → String := fun _ => compliantJson

/-- The extraction agent of the scenario. -/
def extractorStub : String → String := fun _ => "EXTRACTED"

/-- The approval request the coordinator produces on the compliant run. -/
def compliantReq : ApprovalRequestMsg :=
  ⟨"a1", "Manual approval required", "Please review the extracted result.",
   .pstr "n/a", .pstr "No preview"⟩

/-- The engine events of the compliant run's first pass. -/
def compliantEvents : List WfEvent :=
  [.progressEv "extraction" "running", .progressEv "extraction" "completed",
   .progressEv "compliance" "running", .progressEv "compliance" "completed",
   .requestInfoEv "r1" compliantReq]

/-- C2 counterexample: a run whose compliance evaluator returns
`{"compliant": true}` still emits `approval_required`, and the bridged stream
never emits `workflow_completed` — the claim's compliant-branch skip does not
exist in `workflow_small`. -/
theorem C2_counterexample_compliant_not_skipped :
    evaluatorCompliant "EXTRACTED" = compliantJson ∧
    loadsCompliant compliantJson = some (.pdict [("compliant", .pbool true)]) ∧
    pass1 loadsCompliant extractorStub evaluatorCompliant ⟨"doc-1", none, none⟩ "a1" "r1" [] =
      .ok (compliantEvents,
           [("a1", ⟨compliantJson, .pstr "n/a", .pstr "No preview"⟩)], compliantReq) ∧
    SSE.approvalRequired "r1" "a1" ∈
      (event_generator "s1" [⟨compliantEvents, .drained⟩] []).1 ∧
    (∀ s, SSE.workflowCompleted s ∉
      (event_generator "s1" [⟨compliantEvents, .drained⟩] []).1) := by
  have hg : (event_generator "s1" [⟨compliantEvents, .drained⟩] []).1 =
      [SSE.connected, SSE.workflowStarted,
       SSE.progress "extraction" "running", SSE.progress "extraction" "completed",
       SSE.progress "compliance" "running", SSE.progress "compliance" "completed",
       SSE.approvalRequired "r1" "a1",
       SSE.waitingForApproval 1, SSE.errorRec timeoutMsg] := rfl
  refine ⟨rfl, rfl, rfl, ?_, ?_⟩
  · rw [hg]
    simp
  · intro s
    rw [hg]
    simp

/-- C2 witness: the amended theorem at the concrete compliant scenario. -/
theorem C2_witness :
    pass1 loadsCompliant extractorStub evaluatorCompliant ⟨"doc-1", none, none⟩ "a1" "r1" [] =
      .ok (compliantEvents,
           [("a1", ⟨compliantJson, .pstr "n/a", .pstr "No preview"⟩)], compliantReq) ∧
    WfEvent.requestInfoEv "r1" compliantReq ∈ compliantEvents ∧
    (∀ d, WfEvent.outputEv d ∉ compliantEvents) := by
  have h := C2_compliant_run_still_emits_approval loadsCompliant extractorStub
    evaluatorCompliant ⟨"doc-1", none, none⟩ "a1" "r1" "s1" [] []
    compliantEvents [("a1", ⟨compliantJson, .pstr "n/a", .pstr "No preview"⟩)] compliantReq rfl
  exact ⟨rfl, h.2.2.1, h.2.2.2.1⟩

end DocIntel
